import Mathlib

/-!
Shallow embedding of the compile / deploy / verify toolchain scripts of the
Kodevai React-Vite-Web3 starter pack, together with theorems settling the
specified claims about the deployment-and-verification workflow.

External effects (file reads/writes, RPC calls, HTTP calls, clock) are
modelled as scripted components of an environment record; each script is a
pure Lean function from such an environment to an output record that carries
the primary result plus the observable effect trace (transactions submitted,
record files written, warnings logged, poll attempts and delays).
-/

/-- JavaScript `a || b` on strings (with `a` possibly `undefined`):
the default is taken when `a` is `undefined` or the empty string (falsy). -/
def jsOr (a : Option String) (d : String) : String :=
  match a with
  | some v => if v = "" then d else v
  | none => d

/-- JavaScript truthiness filter for an optional string: an `undefined` or
empty-string value is falsy. -/
def jsTruthy (a : Option String) : Option String :=
  match a with
  | some v => if v = "" then none else some v
  | none => none

/-- `pat` occurs as a contiguous sublist of `s` (JS `String.prototype.includes`
on the underlying character lists). -/
def listContainsSub (pat : List Char) : List Char → Bool
  | [] => pat.isEmpty
  | c :: t => pat.isPrefixOf (c :: t) || listContainsSub pat t

/-- JS `s.includes(pat)`: substring containment. -/
def strIncludes (s pat : String) : Bool :=
  listContainsSub pat.data s.data

/-- JS `s.endsWith(suffix)` on the underlying character lists. -/
def strEndsWith (s suffix : String) : Bool :=
  suffix.data.isSuffixOf s.data

/-- `getLicenseType` from the verify script: license string to the explorer
numeric license code, defaulting to the MIT code `"3"` for unknown input. -/
def getLicenseType (license : String) : String :=
  if license = "MIT" then "3"
  else if license = "GPL-3.0" then "9"
  else if license = "Apache-2.0" then "2"
  else if license = "BSD-3-Clause" then "8"
  else if license = "Unlicense" then "12"
  else "3"

/-! ## Deploy script (scripts/deploy.js) -/

/-- One entry of a contract ABI: its kind (`"constructor"`, `"function"`, ...)
and the declared parameter type strings of its inputs. -/
structure AbiItem where
  type : String
  inputs : List String
deriving DecidableEq, Repr

/-- A compiled-contract artifact file as read by the deploy script. -/
structure Artifact where
  contractName : String
  abi : List AbiItem
  bytecode : String
  deployedBytecode : String
  metadata : String
deriving DecidableEq, Repr

/-- The deployment-record JSON written by the deploy script. -/
structure DeploymentInfo where
  contractName : String
  contractAddress : String
  deploymentTx : String
  deployer : String
  network : String
  chainId : Nat
  timestamp : String
  constructorArgs : List String
  constructorTypes : List String
  encodedConstructorArgs : String
deriving DecidableEq, Repr

/-- Scripted environment for one run of the deploy script: CLI arguments
(after the `node script` prefix), environment variables, and the outcome of
every external call the script awaits, in program order. -/
structure DeployEnv where
  argv : List String
  envNETWORK : Option String
  bscMainnetRpc : Option String
  bscTestnetRpc : Option String
  ethMainnetRpc : Option String
  ethSepoliaRpc : Option String
  privateKey : Option String
  readArtifact : String → Except String Artifact
  signerAddress : String
  getBalance : Except String Nat
  getChainId : Except String Nat
  estimateGas : Except String Nat
  sendTx : Nat → Except String String
  confirm : Except String String
  encodeArgs : List String → List String → Except String String
  writePrimary : Except String Unit
  writeMirror : Except String Unit
  timestamp : String

/-- The successful return value of the deploy script
(`{success: true, contractAddress, deploymentTx}`). -/
structure DeployRet where
  contractAddress : String
  deploymentTx : String
deriving DecidableEq, Repr

/-- Observable outcome of a deploy run: the returned value or the caught
error message (`{success: false, error}`), whether the contract-creation
transaction was submitted to the RPC endpoint, the gas limit it was
submitted with, and the deployment-record files successfully written
(path, content), canonical store first, mirror second. -/
structure DeployOut where
  result : Except String DeployRet
  txSubmitted : Bool
  submittedGasLimit : Option Nat
  writes : List (String × DeploymentInfo)
deriving Repr

/-- `getProvider` of the deploy script: resolve the RPC URL for a network.
`bsc` and `bsc-testnet` (and the default branch) fall back to hard-coded
public URLs; `ethereum` and `sepolia` use only the environment variable and
yield `none` (the script then throws) when it is unset or empty. -/
def getProviderUrl (env : DeployEnv) (network : String) : Option String :=
  if network = "bsc" then
    some (jsOr env.bscMainnetRpc "https://bsc-dataseed.binance.org/")
  else if network = "bsc-testnet" then
    some (jsOr env.bscTestnetRpc "https://data-seed-prebsc-1-s1.binance.org:8545/")
  else if network = "ethereum" then jsTruthy env.ethMainnetRpc
  else if network = "sepolia" then jsTruthy env.ethSepoliaRpc
  else some (jsOr env.bscTestnetRpc "https://data-seed-prebsc-1-s1.binance.org:8545/")

/-- Contract name argument: `process.argv[2] || 'SimpleStorage'`. -/
def deployContractName (env : DeployEnv) : String :=
  jsOr (env.argv.get? 0) "SimpleStorage"

/-- Network argument: `process.argv[3] || process.env.NETWORK || 'bsc-testnet'`. -/
def deployNetwork (env : DeployEnv) : String :=
  jsOr (env.argv.get? 1) (jsOr env.envNETWORK "bsc-testnet")

/-- Constructor parameter types from the artifact ABI:
`abi.find(item => item.type === 'constructor')?.inputs.map(i => i.type) || []`. -/
def constructorParamTypes (artifact : Artifact) : List String :=
  match artifact.abi.find? (fun it => it.type = "constructor") with
  | some c => c.inputs
  | none => []

/-- The deploy script from the balance check onward (chain-id query, gas
estimation, 20% gas buffer, transaction submission, confirmation wait,
constructor-arg encoding, record writes). Split out so that passing the
balance check is expressible as reduction to this continuation. -/
def deployAfterBalance (env : DeployEnv) (contractName network : String)
    (artifact : Artifact) (address : String) : DeployOut :=
  match env.getChainId with
  | .error e => ⟨.error e, false, none, []⟩
  | .ok chainId =>
    let constructorArgs := env.argv.drop 2
    match env.estimateGas with
    | .error e => ⟨.error e, false, none, []⟩
    | .ok deploymentGas =>
      let gasLimit := deploymentGas * 120 / 100
      match env.sendTx gasLimit with
      | .error e => ⟨.error e, true, some gasLimit, []⟩
      | .ok txHash =>
        match env.confirm with
        | .error e => ⟨.error e, true, some gasLimit, []⟩
        | .ok contractAddress =>
          let paramTypes := constructorParamTypes artifact
          let encoded : Except String String :=
            if constructorArgs.length > 0 then
              (env.encodeArgs paramTypes constructorArgs).map (fun s => s.drop 2)
            else .ok ""
          match encoded with
          | .error e => ⟨.error e, true, some gasLimit, []⟩
          | .ok encodedConstructorArgs =>
            let info : DeploymentInfo :=
              { contractName := contractName
                contractAddress := contractAddress
                deploymentTx := txHash
                deployer := address
                network := network
                chainId := chainId
                timestamp := env.timestamp
                constructorArgs := constructorArgs
                constructorTypes := paramTypes
                encodedConstructorArgs := encodedConstructorArgs }
            match env.writePrimary with
            | .error e => ⟨.error e, true, some gasLimit, []⟩
            | .ok _ =>
              match env.writeMirror with
              | .error e =>
                ⟨.error e, true, some gasLimit,
                  [("deployments/" ++ network ++ ".json", info)]⟩
              | .ok _ =>
                ⟨.ok ⟨contractAddress, txHash⟩, true, some gasLimit,
                  [("deployments/" ++ network ++ ".json", info),
                   ("public/deployments/" ++ network ++ ".json", info)]⟩

/-- The deploy script `deploy()`: artifact read, RPC resolution, signer
construction, balance check, then `deployAfterBalance`. Any thrown error is
caught and returned as `{success: false, error}` (the `.error` case). -/
def deploy (env : DeployEnv) : DeployOut :=
  let contractName := deployContractName env
  match env.readArtifact contractName with
  | .error e => ⟨.error e, false, none, []⟩
  | .ok artifact =>
    let network := deployNetwork env
    match getProviderUrl env network with
    | none => ⟨.error ("No RPC URL configured for network: " ++ network), false, none, []⟩
    | some _rpcUrl =>
      match env.privateKey with
      | none => ⟨.error "No private key found in environment variables", false, none, []⟩
      | some _pk =>
        let address := env.signerAddress
        match env.getBalance with
        | .error e => ⟨.error e, false, none, []⟩
        | .ok balance =>
          if balance = 0 then
            ⟨.error "Deployer has no funds. Please fund your account first.",
              false, none, []⟩
          else
            deployAfterBalance env contractName network artifact address

/-! ## Verify script (scripts/verify.js) -/

/-- The compilation-settings JSON read by the verify script. -/
structure CompilationSettings where
  contractName : String
  solcVersion : String
  optimizationEnabled : Bool
  optimizationRuns : Nat
  pragma : String
  license : String
  deployedBytecode : String
  compilationTimestamp : String
deriving DecidableEq, Repr

/-- The `verification` sub-object embedded in a deployment-record file.
Fields the spread operator may leave absent are `Option`s. -/
structure Verification where
  status : String
  guid : Option String
  submittedAt : Option String
  compilerVersion : Option String
  explorerUrl : Option String
  verifiedAt : Option String
  failureReason : Option String
deriving DecidableEq, Repr

/-- A deployment-record file as the verify script reads and rewrites it
(only the fields the script touches are listed; optional fields model JSON
keys that may be absent). -/
structure VDeployment where
  contractAddress : String
  encodedConstructorArgs : Option String
  constructorTypes : Option (List String)
  constructorArgs : Option (List String)
  verification : Option Verification
deriving DecidableEq, Repr

/-- Explorer API JSON response `{status, message, result}`. -/
structure ApiResp where
  status : String
  message : String
  result : String
deriving DecidableEq, Repr

/-- The form-encoded verification payload assembled by the verify script. -/
structure VerificationPayload where
  apikey : Option String
  module : String
  action : String
  contractaddress : String
  sourceCode : String
  codeformat : String
  contractname : String
  compilerversion : String
  optimizationUsed : String
  runs : String
  constructorArguements : String
  licenseType : String
deriving DecidableEq, Repr

/-- `getApiUrl` of the verify script: explorer API base URL per network,
falling back to the BSC-testnet URL for unknown networks. -/
def getApiUrl (network : String) : String :=
  let lookup : Option String :=
    if network = "bsc" then some "https://api.bscscan.com/api"
    else if network = "bsc-testnet" then some "https://api-testnet.bscscan.com/api"
    else if network = "ethereum" then some "https://api.etherscan.io/api"
    else if network = "sepolia" then some "https://api-sepolia.etherscan.io/api"
    else none
  jsOr lookup "https://api-testnet.bscscan.com/api"

/-- `getExplorerUrl` of the verify script: human-facing explorer page for a
contract address, with BSC-testnet fallback for unknown networks. -/
def getExplorerUrl (network contractAddress : String) : String :=
  let base : Option String :=
    if network = "bsc" then some "https://bscscan.com"
    else if network = "bsc-testnet" then some "https://testnet.bscscan.com"
    else if network = "ethereum" then some "https://etherscan.io"
    else if network = "sepolia" then some "https://sepolia.etherscan.io"
    else none
  jsOr base "https://testnet.bscscan.com" ++ "/address/" ++ contractAddress ++ "#contracts"

/-- Network argument of the verify script:
`process.argv[3] || process.env.NETWORK || 'bsc-testnet'`. -/
def verifyNetwork (argv : List String) (envNETWORK : Option String) : String :=
  jsOr (argv.get? 1) (jsOr envNETWORK "bsc-testnet")

/-- Scripted environment for one run of the verify script. `pollResp` gives,
per poll attempt index, the textual `result` field of the status-check
response (or a thrown fetch error). -/
structure VerifyEnv where
  argv : List String
  envNETWORK : Option String
  bscMainnetRpc : Option String
  bscTestnetRpc : Option String
  ethMainnetRpc : Option String
  ethSepoliaRpc : Option String
  bscscanKey : Option String
  etherscanKey : Option String
  readSettings : Except String CompilationSettings
  readDeployment : Except String VDeployment
  getCode : Except String String
  encodeArgs : List String → List String → Except String String
  readSource : Except String String
  submit : VerificationPayload → Except String ApiResp
  pollResp : Nat → Except String String
  timestamp : String

/-- `getApiKey` of the verify script: the BSCScan key for networks whose
name contains "bsc", else the Etherscan key (possibly unset). -/
def getApiKey (env : VerifyEnv) (network : String) : Option String :=
  if strIncludes network "bsc" then env.bscscanKey else env.etherscanKey

/-- The verification payload assembled by `verifyContract` before the
submission POST. -/
def buildVerificationPayload (env : VerifyEnv) (network : String)
    (settings : CompilationSettings) (deployment : VDeployment)
    (sourceCode encodedArgs : String) : VerificationPayload :=
  { apikey := getApiKey env network
    module := "contract"
    action := "verifysourcecode"
    contractaddress := deployment.contractAddress
    sourceCode := sourceCode
    codeformat := "solidity-single-file"
    contractname := settings.contractName
    compilerversion := "v" ++ settings.solcVersion
    optimizationUsed := if settings.optimizationEnabled then "1" else "0"
    runs := toString settings.optimizationRuns
    constructorArguements := encodedArgs
    licenseType := getLicenseType settings.license }

/-- `updateVerificationStatus` of the verify script: re-read the record file,
merge a new status (plus `verifiedAt` when verified, and the failure reason)
over the existing `verification` object by spread, and write it back. The
whole body is inside try/catch: a failed write (`writeOk = false`) only logs
a warning and leaves the stored record unchanged. -/
def updateVerificationStatus (writeOk : Bool) (now : String) (store : VDeployment)
    (status : String) (failureReason : Option String) : VDeployment :=
  if writeOk then
    let oldv := store.verification
    { store with verification := some {
        status := status
        guid := oldv.bind (fun v => v.guid)
        submittedAt := oldv.bind (fun v => v.submittedAt)
        compilerVersion := oldv.bind (fun v => v.compilerVersion)
        explorerUrl := oldv.bind (fun v => v.explorerUrl)
        verifiedAt := if status = "verified" then some now else oldv.bind (fun v => v.verifiedAt)
        failureReason := failureReason } }
  else store

/-- `storeVerificationDetails` of the verify script: after a successful
submission, write the record back with a fresh `verification` object in
state `submitted`. Also try/catch-guarded: a failed write only warns. -/
def storeVerificationDetails (writeOk : Bool) (now : String) (network : String)
    (deployment : VDeployment) (guid : String) (settings : CompilationSettings) :
    VDeployment :=
  if writeOk then
    { deployment with verification := some {
        status := "submitted"
        guid := some guid
        submittedAt := some now
        compilerVersion := some settings.solcVersion
        explorerUrl := some (getExplorerUrl network deployment.contractAddress)
        verifiedAt := none
        failureReason := none } }
  else deployment

/-- Observable outcome of one poller run: the returned/thrown result, the
final stored record, the sequence of statuses the poller wrote (attempted
transitions, in order), the number of status-check requests issued, and the
total milliseconds of fixed suspension. -/
structure PollOut where
  result : Except String Unit
  store : VDeployment
  statusWrites : List String
  attempts : Nat
  delayMsTotal : Nat
deriving Repr

/-- The body of `pollVerificationStatus` with `fuel` iterations remaining and
`i` iterations already taken: each iteration suspends 3000 ms, issues the
status-check GET, returns on `"Pass - Verified"` (persisting `verified`),
throws on a result containing `"Fail"` (persisting `failed` with the raw
text), loops otherwise; exhausting the loop persists `timeout` and throws. -/
def pollAux (resp : Nat → Except String String) (writeOk : Nat → Bool) (now : String)
    (store : VDeployment) (i fuel : Nat) : PollOut :=
  match fuel with
  | 0 =>
    let store2 := updateVerificationStatus (writeOk i) now store "timeout" none
    ⟨.error "Verification timeout", store2, ["timeout"], i, i * 3000⟩
  | f + 1 =>
    match resp i with
    | .error e => ⟨.error e, store, [], i + 1, (i + 1) * 3000⟩
    | .ok r =>
      if r = "Pass - Verified" then
        let store2 := updateVerificationStatus (writeOk i) now store "verified" none
        ⟨.ok (), store2, ["verified"], i + 1, (i + 1) * 3000⟩
      else if strIncludes r "Fail" then
        let store2 := updateVerificationStatus (writeOk i) now store "failed" (some r)
        ⟨.error ("Verification failed: " ++ r), store2, ["failed"], i + 1, (i + 1) * 3000⟩
      else
        pollAux resp writeOk now store (i + 1) f

/-- `pollVerificationStatus` of the verify script: up to 20 attempts starting
from an empty loop counter. -/
def pollVerificationStatus (resp : Nat → Except String String) (writeOk : Nat → Bool)
    (now : String) (store : VDeployment) : PollOut :=
  pollAux resp writeOk now store 0 20

/-- Observable outcome of one `verifyContract` run: the primary result
(`.ok` completes normally; `.error e` means the error was caught, logged and
the process exits 1), the warnings logged before submission, whether the
verification-submission HTTP POST was issued, the final stored record when
the run reached the storage phase, and the number of poll attempts. -/
structure VerifyOut where
  result : Except String Unit
  warnings : List String
  submitCalled : Bool
  finalStore : Option VDeployment
  pollAttempts : Nat
deriving Repr

/-- Exit status of the verify script process: 0 on normal completion,
1 via `process.exit(1)` in the catch block. -/
def verifyExitCode (out : VerifyOut) : Nat :=
  match out.result with
  | .ok _ => 0
  | .error _ => 1

/-- The warning text logged when the compiler version lacks a commit hash. -/
def versionWarning : String :=
  "⚠️ Version missing commit hash - this may cause verification failure"

/-- `verifyContract` of the verify script: read settings, advisory version
check, read deployment record, fetch on-chain code, bytecode containment
check, constructor-arg resolution, source read, payload assembly, submission
POST, then on API status `"1"` store the `submitted` record and poll; any
thrown error is caught and the process exits 1. `writeOk 0` scripts the
initial record write, `writeOk (i+1)` the poller's write at attempt `i`. -/
def verifyContract (env : VerifyEnv) (writeOk : Nat → Bool) : VerifyOut :=
  match env.readSettings with
  | .error e => ⟨.error e, [], false, none, 0⟩
  | .ok settings =>
    let warnings :=
      if strIncludes settings.solcVersion "+commit." = false then [versionWarning] else []
    match env.readDeployment with
    | .error e => ⟨.error e, warnings, false, none, 0⟩
    | .ok deployment =>
      match env.getCode with
      | .error e => ⟨.error e, warnings, false, none, 0⟩
      | .ok deployedBytecode =>
        if strIncludes deployedBytecode (settings.deployedBytecode.drop 2) = false then
          ⟨.error "Deployed bytecode does not match compiled bytecode",
            warnings, false, none, 0⟩
        else
          match
            match jsTruthy deployment.encodedConstructorArgs with
            | some v => Except.ok v
            | none =>
              (env.encodeArgs (deployment.constructorTypes.getD [])
                (deployment.constructorArgs.getD [])).map (fun s : String => s.drop 2)
          with
          | .error e => ⟨.error e, warnings, false, none, 0⟩
          | .ok encodedArgs =>
            match env.readSource with
            | .error e => ⟨.error e, warnings, false, none, 0⟩
            | .ok sourceCode =>
              match env.submit (buildVerificationPayload env
                  (verifyNetwork env.argv env.envNETWORK) settings deployment
                  sourceCode encodedArgs) with
              | .error e => ⟨.error e, warnings, true, none, 0⟩
              | .ok resp =>
                if resp.status = "1" then
                  let store1 := storeVerificationDetails (writeOk 0) env.timestamp
                    (verifyNetwork env.argv env.envNETWORK) deployment resp.result settings
                  let pout := pollVerificationStatus env.pollResp
                    (fun i => writeOk (i + 1)) env.timestamp store1
                  ⟨pout.result, warnings, true, some pout.store, pout.attempts⟩
                else
                  ⟨.error ("Verification submission failed: " ++ resp.message),
                    warnings, true, none, 0⟩

/-! ## Compile script (scripts/compile.js) -/

/-- One entry of the solc `errors` array: severity and message. -/
structure SolcError where
  severity : String
  formattedMessage : String
deriving DecidableEq, Repr

/-- The solc output for one source file, as the compile script consumes it:
the diagnostics list and whether `output.contracts[file][contractName]`
is present. -/
structure SolcOut where
  errors : List SolcError
  hasContract : Bool
deriving DecidableEq, Repr

/-- Scripted environment for one run of the compile script: the contracts
directory listing and the outcome of each external call. -/
structure CompileEnv where
  files : List String
  mkdirArtifacts : Except String Unit
  readFile : String → Except String String
  solcOut : String → SolcOut
  writeArtifact : String → Except String Unit
  writeSettings : String → Except String Unit
  compilerVersion : String

/-- The per-file body of the compile loop: skip non-`.sol` files, read the
source, compile, throw on an error-severity diagnostic, throw when the
contract is missing from the output, then write the artifact and the shared
settings file. -/
def compileOne (env : CompileEnv) (file : String) : Except String Unit :=
  if strEndsWith file ".sol" = false then .ok ()
  else
    match env.readFile file with
    | .error e => .error e
    | .ok _src =>
      let contractName := file.dropRight 4
      let out := env.solcOut file
      if out.errors.any (fun er => er.severity = "error") then
        .error "Compilation failed due to errors"
      else if out.hasContract = false then
        .error ("Contract " ++ contractName ++ " not found in compilation output")
      else
        match env.writeArtifact contractName with
        | .error e => .error e
        | .ok _ =>
          match env.writeSettings contractName with
          | .error e => .error e
          | .ok _ => .ok ()

/-- The compile loop over the directory listing; the first throw aborts. -/
def compileFiles (env : CompileEnv) : List String → Except String Unit
  | [] => .ok ()
  | f :: rest =>
    match compileOne env f with
    | .error e => .error e
    | .ok _ => compileFiles env rest

/-- The try-block of `compile()`: create the artifacts directory, then the
compile loop. A `.error` is a throw reaching the catch. -/
def compileBody (env : CompileEnv) : Except String Unit :=
  match env.mkdirArtifacts with
  | .error e => .error e
  | .ok _ => compileFiles env env.files

/-- The async function `compile()` as the caller's promise observes it: the
whole body sits in try/catch, the try block ends in `return true`, the catch
logs and ends in `return false`. `.ok b` is a resolution with value `b`;
`.error` would be a rejection, and the catch-all means none ever escapes. -/
def compileFn (env : CompileEnv) : Except String Bool :=
  match compileBody env with
  | .ok _ => .ok true
  | .error _ => .ok false

/-- Exit status of a direct `node scripts/compile.js` run: the entry point
fires `compile()` without awaiting; the process exits non-zero only if that
promise rejects (unhandled rejection), else 0. -/
def compileScriptExit (env : CompileEnv) : Nat :=
  match compileFn env with
  | .ok _ => 0
  | .error _ => 1

/-! ## Sample environments used as concrete witnesses -/

/-- A well-formed compiled artifact for a contract without constructor
arguments. -/
def sampleArtifact : Artifact :=
  { contractName := "SimpleStorage"
    abi := [⟨"constructor", []⟩, ⟨"function", ["uint256"]⟩]
    bytecode := "0x6080aa33"
    deployedBytecode := "0x6080aa"
    metadata := "meta" }

/-- A deploy environment in which every external call succeeds. -/
def envDeployOk : DeployEnv :=
  { argv := []
    envNETWORK := none
    bscMainnetRpc := none
    bscTestnetRpc := none
    ethMainnetRpc := none
    ethSepoliaRpc := none
    privateKey := some "0xkey"
    readArtifact := fun _ => .ok sampleArtifact
    signerAddress := "0xADD"
    getBalance := .ok 5
    getChainId := .ok 97
    estimateGas := .ok 100000
    sendTx := fun _ => .ok "0xtxhash"
    confirm := .ok "0xC0FFEE"
    encodeArgs := fun _ _ => .ok "0x"
    writePrimary := .ok ()
    writeMirror := .ok ()
    timestamp := "2026-10-11T00:00:00.000Z" }

/-- `envDeployOk` with a zero signer balance. -/
def envDeployZero : DeployEnv :=
  { envDeployOk with getBalance := .ok 0 }

/-- `envDeployOk` with an unreadable artifact file. -/
def envDeployNoArtifact : DeployEnv :=
  { envDeployOk with readArtifact := fun _ => .error "Artifact not found" }

/-- Compilation settings matching `sampleArtifact`. -/
def sampleSettings : CompilationSettings :=
  { contractName := "SimpleStorage"
    solcVersion := "0.8.20+commit.a1b79de6"
    optimizationEnabled := true
    optimizationRuns := 200
    pragma := "0.8.20"
    license := "MIT"
    deployedBytecode := "0x6080aa"
    compilationTimestamp := "2026-10-11T00:00:00.000Z" }

/-- A deployment record with pre-encoded constructor arguments. -/
def sampleVDeployment : VDeployment :=
  { contractAddress := "0xC0FFEE"
    encodedConstructorArgs := some "00aa"
    constructorTypes := some ["uint256"]
    constructorArgs := some ["42"]
    verification := none }

/-- A verify environment in which every step succeeds: the on-chain code
contains the compiled runtime bytecode, the explorer accepts the submission,
and the first poll already reports verified. -/
def envVerifyOk : VerifyEnv :=
  { argv := []
    envNETWORK := none
    bscMainnetRpc := none
    bscTestnetRpc := none
    ethMainnetRpc := none
    ethSepoliaRpc := none
    bscscanKey := some "BSCKEY"
    etherscanKey := none
    readSettings := .ok sampleSettings
    readDeployment := .ok sampleVDeployment
    getCode := .ok "0x6080aabbcc"
    encodeArgs := fun _ _ => .ok "0x"
    readSource := .ok "pragma solidity 0.8.20;"
    submit := fun _ => .ok ⟨"1", "OK", "guid123"⟩
    pollResp := fun _ => .ok "Pass - Verified"
    timestamp := "2026-10-11T00:00:00.000Z" }

/-- `envVerifyOk` with on-chain code that does not contain the compiled
runtime bytecode. -/
def envVerifyMismatch : VerifyEnv :=
  { envVerifyOk with getCode := .ok "0xdeadbeef" }

/-- `envVerifyOk` with a commit-less compiler version in the settings. -/
def envVerifyNoCommit : VerifyEnv :=
  { envVerifyOk with
      readSettings := .ok { sampleSettings with solcVersion := "0.8.20" } }

/-- A compile environment whose single source file has an error-severity
diagnostic. -/
def envCompileBad : CompileEnv :=
  { files := ["Bad.sol"]
    mkdirArtifacts := .ok ()
    readFile := fun _ => .ok "pragma solidity 0.8.20;"
    solcOut := fun _ => ⟨[⟨"error", "ParserError: boom"⟩], false⟩
    writeArtifact := fun _ => .ok ()
    writeSettings := fun _ => .ok ()
    compilerVersion := "0.8.20+commit.a1b79de6" }

/-- A compile environment in which everything succeeds. -/
def envCompileGood : CompileEnv :=
  { envCompileBad with
      solcOut := fun _ => ⟨[⟨"warning", "unused variable"⟩], true⟩ }

/-! ## Claims -/

/-- C8: the license-to-numeric-code mapping is total: for every input string
it returns a defined numeric code; the listed licenses map to their fixed
codes (MIT "3", GPL-3.0 "9", Apache-2.0 "2", BSD-3-Clause "8",
Unlicense "12") and every unknown license string maps to the MIT code "3". -/
theorem C8_license_code_mapping :
    getLicenseType "MIT" = "3" ∧ getLicenseType "GPL-3.0" = "9" ∧
    getLicenseType "Apache-2.0" = "2" ∧ getLicenseType "BSD-3-Clause" = "8" ∧
    getLicenseType "Unlicense" = "12" ∧
    (∀ s : String,
      getLicenseType s = "3" ∨ getLicenseType s = "9" ∨ getLicenseType s = "2" ∨
      getLicenseType s = "8" ∨ getLicenseType s = "12") ∧
    (∀ s : String,
      s ∉ (["MIT", "GPL-3.0", "Apache-2.0", "BSD-3-Clause", "Unlicense"] : List String) →
      getLicenseType s = "3") := by
  refine ⟨rfl, rfl, rfl, rfl, rfl, ?_, ?_⟩
  · intro s
    unfold getLicenseType
    split_ifs <;> simp
  · intro s hs
    unfold getLicenseType
    split_ifs with h1 h2 h3 h4 h5
    · rfl
    · exact absurd (by simp [h2]) hs
    · exact absurd (by simp [h3]) hs
    · exact absurd (by simp [h4]) hs
    · exact absurd (by simp [h5]) hs
    · rfl

/-- Witness for C8 at the unknown license string "WTFPL". -/
theorem C8_license_code_mapping_witness : getLicenseType "WTFPL" = "3" :=
  C8_license_code_mapping.2.2.2.2.2.2 "WTFPL" (by decide)

/-- Case analysis of a deploy run: either it stops at one of the gates
before the balance check passes (artifact read, RPC resolution, signer
credential, balance query, zero balance) with an error, no transaction, no
gas limit and no writes, or the balance is nonzero and the run equals the
post-balance continuation. -/
theorem deploy_shape (env : DeployEnv) :
    ((∃ e, (deploy env).result = .error e) ∧ (deploy env).txSubmitted = false ∧
      (deploy env).submittedGasLimit = none ∧ (deploy env).writes = []) ∨
    (∃ a b, env.readArtifact (deployContractName env) = .ok a ∧
      env.getBalance = .ok b ∧ b ≠ 0 ∧
      deploy env = deployAfterBalance env (deployContractName env) (deployNetwork env)
        a env.signerAddress) := by
  simp only [deploy]
  cases h1 : env.readArtifact (deployContractName env) with
  | error e => exact Or.inl ⟨⟨e, rfl⟩, rfl, rfl, rfl⟩
  | ok a =>
    cases h2 : getProviderUrl env (deployNetwork env) with
    | none => exact Or.inl ⟨⟨_, rfl⟩, rfl, rfl, rfl⟩
    | some u =>
      cases h3 : env.privateKey with
      | none => exact Or.inl ⟨⟨_, rfl⟩, rfl, rfl, rfl⟩
      | some pk =>
        cases h4 : env.getBalance with
        | error e => exact Or.inl ⟨⟨e, rfl⟩, rfl, rfl, rfl⟩
        | ok b =>
          by_cases hb : b = 0
          · subst hb
            exact Or.inl ⟨⟨"Deployer has no funds. Please fund your account first.",
              by simp⟩, by simp, by simp, by simp⟩
          · exact Or.inr ⟨a, b, rfl, rfl, hb, by simp [hb]⟩

/-- In the post-balance continuation, every gas limit attached to the
submitted transaction is floor(g*120/100) for the scripted estimate g. -/
theorem deployAfterBalance_gasLimit (env : DeployEnv) (cn net : String) (a : Artifact)
    (addr : String) (g : Nat) (hg : env.estimateGas = .ok g) :
    (deployAfterBalance env cn net a addr).submittedGasLimit = none ∨
    (deployAfterBalance env cn net a addr).submittedGasLimit = some (g * 120 / 100) := by
  simp only [deployAfterBalance, hg]
  cases h1 : env.getChainId with
  | error e => exact Or.inl rfl
  | ok c =>
    cases h2 : env.sendTx (g * 120 / 100) with
    | error e => exact Or.inr rfl
    | ok tx =>
      cases h3 : env.confirm with
      | error e => exact Or.inr rfl
      | ok caddr =>
        by_cases h4 : 0 < (env.argv.drop 2).length
        · simp only [h4, if_true]
          cases h5 : (env.encodeArgs (constructorParamTypes a) (env.argv.drop 2)).map
              (fun s => s.drop 2) with
          | error e => exact Or.inr rfl
          | ok enc =>
            cases h6 : env.writePrimary with
            | error e => exact Or.inr rfl
            | ok _ =>
              cases h7 : env.writeMirror with
              | error e => exact Or.inr rfl
              | ok _ => exact Or.inr rfl
        · simp only [h4, if_false]
          cases h6 : env.writePrimary with
          | error e => exact Or.inr rfl
          | ok _ =>
            cases h7 : env.writeMirror with
            | error e => exact Or.inr rfl
            | ok _ => exact Or.inr rfl

/-- C2: for every positive gas estimate g supplied by the endpoint, any gas
limit the deploy run attaches to the submitted creation transaction equals
floor(g*120/100) (integer multiply-then-divide), and that limit is at least
g. -/
theorem C2_gas_limit_margin (env : DeployEnv) (g : Nat)
    (hg : env.estimateGas = .ok g) (hpos : 0 < g) :
    ((deploy env).submittedGasLimit = none ∨
      (deploy env).submittedGasLimit = some (g * 120 / 100)) ∧
    g ≤ g * 120 / 100 := by
  constructor
  · rcases deploy_shape env with ⟨_, _, h, _⟩ | ⟨a, b, _, _, _, heq⟩
    · exact Or.inl h
    · rw [heq]
      exact deployAfterBalance_gasLimit env _ _ a _ g hg
  · calc g = g * 100 / 100 := by omega
      _ ≤ g * 120 / 100 := Nat.div_le_div_right (Nat.mul_le_mul_left g (by omega))

/-- Witness for C2 at the all-succeeding deploy environment with estimate
100000: the submitted limit is floor(100000*120/100) = 120000 ≥ 100000. -/
theorem C2_gas_limit_margin_witness :
    (((deploy envDeployOk).submittedGasLimit = none ∨
      (deploy envDeployOk).submittedGasLimit = some (100000 * 120 / 100)) ∧
      100000 ≤ 100000 * 120 / 100) :=
  C2_gas_limit_margin envDeployOk 100000 rfl (by norm_num)

/-- C5: with artifact, RPC endpoint and signing credential configured, a
queried balance of exactly zero makes deploy fail with the
insufficient-funds error before any contract-creation transaction is
submitted and before any record is written; any nonzero balance passes the
check (the run reduces to the post-balance continuation — no fractional
threshold). -/
theorem C5_zero_balance_gate (env : DeployEnv) (a : Artifact) (u pk : String)
    (hart : env.readArtifact (deployContractName env) = .ok a)
    (hrpc : getProviderUrl env (deployNetwork env) = some u)
    (hpk : env.privateKey = some pk) :
    (env.getBalance = .ok 0 →
      (deploy env).result = .error "Deployer has no funds. Please fund your account first." ∧
      (deploy env).txSubmitted = false ∧ (deploy env).writes = []) ∧
    (∀ b, env.getBalance = .ok b → b ≠ 0 →
      deploy env = deployAfterBalance env (deployContractName env) (deployNetwork env)
        a env.signerAddress) := by
  constructor
  · intro h0
    simp [deploy, hart, hrpc, hpk, h0]
  · intro b hb hbne
    simp [deploy, hart, hrpc, hpk, hb, hbne]

/-- Witness for C5: the zero-balance environment fails with the
insufficient-funds message, submits no transaction and writes no record. -/
theorem C5_zero_balance_gate_witness :
    (deploy envDeployZero).result =
      .error "Deployer has no funds. Please fund your account first." ∧
    (deploy envDeployZero).txSubmitted = false ∧ (deploy envDeployZero).writes = [] :=
  (C5_zero_balance_gate envDeployZero sampleArtifact
    "https://data-seed-prebsc-1-s1.binance.org:8545/" "0xkey" rfl rfl rfl).1 rfl

/-- In the post-balance continuation, if the run fails although both record
writes are scripted to succeed, the failure happened before the
record-persistence step and no record file was written. -/
theorem deployAfterBalance_no_writes (env : DeployEnv) (cn net : String) (a : Artifact)
    (addr : String) (e : String)
    (hw1 : env.writePrimary = .ok ()) (hw2 : env.writeMirror = .ok ())
    (hres : (deployAfterBalance env cn net a addr).result = .error e) :
    (deployAfterBalance env cn net a addr).writes = [] := by
  simp only [deployAfterBalance, hw1, hw2] at hres ⊢
  cases h1 : env.getChainId with
  | error e1 => rfl
  | ok c =>
    simp only [h1] at hres ⊢
    cases h2 : env.estimateGas with
    | error e2 => rfl
    | ok g =>
      simp only [h2] at hres ⊢
      cases h3 : env.sendTx (g * 120 / 100) with
      | error e3 => rfl
      | ok tx =>
        simp only [h3] at hres ⊢
        cases h4 : env.confirm with
        | error e4 => rfl
        | ok caddr =>
          simp only [h4] at hres ⊢
          by_cases h5 : 0 < (env.argv.drop 2).length
          · simp only [h5, if_true] at hres ⊢
            cases h6 : (env.encodeArgs (constructorParamTypes a) (env.argv.drop 2)).map
                (fun s => s.drop 2) with
            | error e5 => rfl
            | ok enc => simp [h6] at hres
          · simp only [h5, if_false] at hres ⊢
            simp at hres

/-- C4: whenever a deploy run fails — reported as {success: false, error}
with the underlying message — and the failure is not itself a record-write
failure (both record writes are scripted to succeed), no deployment record
was written to the canonical store or the mirror: every failure at a step
before the final record-persistence step halts the run with no record. -/
theorem C4_no_record_on_failure (env : DeployEnv) (e : String)
    (hres : (deploy env).result = .error e)
    (hw1 : env.writePrimary = .ok ())
    (hw2 : env.writeMirror = .ok ()) :
    (deploy env).writes = [] := by
  rcases deploy_shape env with ⟨_, _, _, h⟩ | ⟨a, b, _, _, hb, heq⟩
  · exact h
  · rw [heq] at hres ⊢
    exact deployAfterBalance_no_writes env _ _ a _ e hw1 hw2 hres

/-- Witness for C4: an unreadable artifact fails the run and leaves both
record locations unwritten. -/
theorem C4_no_record_on_failure_witness : (deploy envDeployNoArtifact).writes = [] :=
  C4_no_record_on_failure envDeployNoArtifact "Artifact not found" rfl rfl rfl

/-- C3: the verification submission proceeds only if the live on-chain
bytecode contains, as a substring, the compiled deployedBytecode with its
0x prefix stripped: a failed containment check stops the run with the
bytecode-mismatch error before the submission POST is issued, and whenever
the submission POST is issued the containment held. -/
theorem C3_bytecode_containment_gate (env : VerifyEnv) (writeOk : Nat → Bool) :
    (∀ settings d code, env.readSettings = .ok settings →
      env.readDeployment = .ok d → env.getCode = .ok code →
      strIncludes code (settings.deployedBytecode.drop 2) = false →
      (verifyContract env writeOk).result =
        .error "Deployed bytecode does not match compiled bytecode" ∧
      (verifyContract env writeOk).submitCalled = false) ∧
    ((verifyContract env writeOk).submitCalled = true →
      ∃ settings code, env.readSettings = .ok settings ∧ env.getCode = .ok code ∧
        strIncludes code (settings.deployedBytecode.drop 2) = true) := by
  constructor
  · intro settings d code hs hd hc hmiss
    constructor <;> simp [verifyContract, hs, hd, hc, hmiss]
  · intro hsub
    simp only [verifyContract] at hsub
    cases hs : env.readSettings with
    | error e => rw [hs] at hsub; simp at hsub
    | ok settings =>
      rw [hs] at hsub
      cases hd : env.readDeployment with
      | error e => rw [hd] at hsub; simp at hsub
      | ok d =>
        rw [hd] at hsub
        cases hc : env.getCode with
        | error e => rw [hc] at hsub; simp at hsub
        | ok code =>
          rw [hc] at hsub
          by_cases hb : strIncludes code (settings.deployedBytecode.drop 2) = false
          · simp [hb] at hsub
          · exact ⟨settings, code, rfl, rfl, by simpa using hb⟩

/-- Witness for C3: a crafted bytecode mismatch short-circuits with the
mismatch error and no submission HTTP call. -/
theorem C3_bytecode_containment_gate_witness :
    (verifyContract envVerifyMismatch (fun _ => true)).result =
      .error "Deployed bytecode does not match compiled bytecode" ∧
    (verifyContract envVerifyMismatch (fun _ => true)).submitCalled = false :=
  (C3_bytecode_containment_gate envVerifyMismatch (fun _ => true)).1
    sampleSettings sampleVDeployment "0xdeadbeef" rfl rfl rfl (by decide)

/-- C6 counterexample: with compilation settings whose solcVersion "0.8.20"
lacks the commit qualifier (so it cannot match
`<major>.<minor>.<patch>+commit.<hex>`) and every other step succeeding, the
verification submission is still attempted and the run completes verified —
the version format does not prevent submission, contradicting the claim. -/
theorem C6_counterexample :
    strIncludes "0.8.20" "+commit." = false ∧
    (verifyContract envVerifyNoCommit (fun _ => true)).submitCalled = true ∧
    (verifyContract envVerifyNoCommit (fun _ => true)).result = .ok () :=
  ⟨rfl, rfl, rfl⟩

/-- C6 amended: a solcVersion lacking the "+commit." marker (the code checks
only for this substring, not the full commit-qualified pattern) causes a
console warning and nothing else: the submission is still attempted whenever
the steps before it succeed, so the version format is advisory rather than a
hard precondition. -/
theorem C6_version_check_advisory (env : VerifyEnv) (writeOk : Nat → Bool)
    (settings : CompilationSettings) (d : VDeployment) (code src v : String)
    (hs : env.readSettings = .ok settings)
    (hv : strIncludes settings.solcVersion "+commit." = false)
    (hd : env.readDeployment = .ok d)
    (hc : env.getCode = .ok code)
    (hb : strIncludes code (settings.deployedBytecode.drop 2) = true)
    (ha : jsTruthy d.encodedConstructorArgs = some v)
    (hsrc : env.readSource = .ok src) :
    (verifyContract env writeOk).warnings = [versionWarning] ∧
    (verifyContract env writeOk).submitCalled = true := by
  simp [verifyContract, hs, hv, hd, hc, hb, ha, hsrc]
  constructor <;> split <;> (try split) <;> rfl

/-- Witness for the amended C6 at the commit-less environment. -/
theorem C6_version_check_advisory_witness :
    (verifyContract envVerifyNoCommit (fun _ => true)).warnings = [versionWarning] ∧
    (verifyContract envVerifyNoCommit (fun _ => true)).submitCalled = true :=
  C6_version_check_advisory envVerifyNoCommit (fun _ => true)
    { sampleSettings with solcVersion := "0.8.20" } sampleVDeployment
    "0x6080aabbcc" "pragma solidity 0.8.20;" "00aa"
    rfl (by decide) rfl rfl (by decide) rfl rfl

/-- The poller's primary result and attempt count do not depend on the
record-write schedule or on the stored record contents. -/
theorem pollAux_result_indep (resp : Nat → Except String String) (w1 w2 : Nat → Bool)
    (now : String) (s1 s2 : VDeployment) (i fuel : Nat) :
    (pollAux resp w1 now s1 i fuel).result = (pollAux resp w2 now s2 i fuel).result ∧
    (pollAux resp w1 now s1 i fuel).attempts = (pollAux resp w2 now s2 i fuel).attempts := by
  induction fuel generalizing i with
  | zero => exact ⟨rfl, rfl⟩
  | succ f ih =>
    simp only [pollAux]
    cases resp i with
    | error e => exact ⟨rfl, rfl⟩
    | ok r =>
      by_cases h1 : r = "Pass - Verified"
      · simp [h1]
      · simp only [h1, if_false]
        by_cases h2 : strIncludes r "Fail" = true
        · simp [h2]
        · simp only [Bool.not_eq_true] at h2
          simp only [h2, Bool.false_eq_true, if_false]
          exact ih (i + 1)

/-- Poll bookkeeping: the attempt counter never exceeds `i + fuel` and the
total suspension is exactly 3000 ms per attempt (each attempt is preceded by
one fixed 3-second delay). -/
theorem pollAux_attempts (resp : Nat → Except String String) (wOk : Nat → Bool)
    (now : String) (store : VDeployment) :
    ∀ fuel i, (pollAux resp wOk now store i fuel).attempts ≤ i + fuel ∧
      (pollAux resp wOk now store i fuel).delayMsTotal =
        (pollAux resp wOk now store i fuel).attempts * 3000 := by
  intro fuel
  induction fuel with
  | zero => intro i; simp [pollAux]
  | succ f ih =>
    intro i
    simp only [pollAux]
    cases resp i with
    | error e => exact ⟨by dsimp only; omega, rfl⟩
    | ok r =>
      dsimp only
      by_cases h1 : r = "Pass - Verified"
      · rw [if_pos h1]; exact ⟨by dsimp only; omega, rfl⟩
      · rw [if_neg h1]
        by_cases h2 : strIncludes r "Fail" = true
        · rw [if_pos h2]; exact ⟨by dsimp only; omega, rfl⟩
        · rw [if_neg h2]
          obtain ⟨ha, hb⟩ := ih (i + 1)
          exact ⟨by omega, hb⟩

/-- If every response before attempt index `i0` is non-terminal (neither the
exact verified text nor one containing "Fail") and the response at `i0` is
exactly "Pass - Verified", the poller stops right there: `i0 + 1` attempts,
result ok, and one `verified` transition persisted. -/
theorem pollAux_verified_stop (resp : Nat → Except String String) (wOk : Nat → Bool)
    (now : String) (store : VDeployment) (i0 : Nat)
    (hr : resp i0 = .ok "Pass - Verified") :
    ∀ fuel i, i ≤ i0 → i0 < i + fuel →
      (∀ j, i ≤ j → j < i0 →
        ∃ s, resp j = .ok s ∧ s ≠ "Pass - Verified" ∧ strIncludes s "Fail" = false) →
      pollAux resp wOk now store i fuel =
        ⟨.ok (), updateVerificationStatus (wOk i0) now store "verified" none,
          ["verified"], i0 + 1, (i0 + 1) * 3000⟩ := by
  intro fuel
  induction fuel with
  | zero => intro i hge hlt hprev; omega
  | succ f ih =>
    intro i hge hlt hprev
    rcases eq_or_lt_of_le hge with heq | hlt2
    · subst heq
      simp only [pollAux, hr]
      simp only [if_true]
    · obtain ⟨s, hs, hs1, hs2⟩ := hprev i (le_refl i) hlt2
      simp only [pollAux, hs]
      rw [if_neg hs1, if_neg (by simp [hs2])]
      exact ih (i + 1) hlt2 (by omega) (fun j hj1 hj2 => hprev j (by omega) hj2)

/-- If every response before attempt index `i0` is non-terminal and the
response at `i0` contains "Fail" (and is not the verified text), the poller
stops right there: `i0 + 1` attempts, a thrown failure carrying the raw
text, and one `failed` transition persisted with the raw text as the
failure reason. -/
theorem pollAux_fail_stop (resp : Nat → Except String String) (wOk : Nat → Bool)
    (now : String) (store : VDeployment) (i0 : Nat) (r : String)
    (hr : resp i0 = .ok r) (hr1 : r ≠ "Pass - Verified")
    (hr2 : strIncludes r "Fail" = true) :
    ∀ fuel i, i ≤ i0 → i0 < i + fuel →
      (∀ j, i ≤ j → j < i0 →
        ∃ s, resp j = .ok s ∧ s ≠ "Pass - Verified" ∧ strIncludes s "Fail" = false) →
      pollAux resp wOk now store i fuel =
        ⟨.error ("Verification failed: " ++ r),
          updateVerificationStatus (wOk i0) now store "failed" (some r),
          ["failed"], i0 + 1, (i0 + 1) * 3000⟩ := by
  intro fuel
  induction fuel with
  | zero => intro i hge hlt hprev; omega
  | succ f ih =>
    intro i hge hlt hprev
    rcases eq_or_lt_of_le hge with heq | hlt2
    · subst heq
      simp only [pollAux, hr]
      rw [if_neg hr1, if_pos hr2]
    · obtain ⟨s, hs, hs1, hs2⟩ := hprev i (le_refl i) hlt2
      simp only [pollAux, hs]
      rw [if_neg hs1, if_neg (by simp [hs2])]
      exact ih (i + 1) hlt2 (by omega) (fun j hj1 hj2 => hprev j (by omega) hj2)

/-- If every response in the window is non-terminal, the poller exhausts all
attempts and persists one `timeout` transition. -/
theorem pollAux_timeout (resp : Nat → Except String String) (wOk : Nat → Bool)
    (now : String) (store : VDeployment) :
    ∀ fuel i,
      (∀ j, i ≤ j → j < i + fuel →
        ∃ s, resp j = .ok s ∧ s ≠ "Pass - Verified" ∧ strIncludes s "Fail" = false) →
      pollAux resp wOk now store i fuel =
        ⟨.error "Verification timeout",
          updateVerificationStatus (wOk (i + fuel)) now store "timeout" none,
          ["timeout"], i + fuel, (i + fuel) * 3000⟩ := by
  intro fuel
  induction fuel with
  | zero => intro i h; simp [pollAux]
  | succ f ih =>
    intro i h
    obtain ⟨s, hs, hs1, hs2⟩ := h i (le_refl i) (by omega)
    simp only [pollAux, hs]
    rw [if_neg hs1, if_neg (by simp [hs2])]
    have heq : i + 1 + f = i + (f + 1) := by omega
    have := ih (i + 1) (fun j hj1 hj2 => h j (by omega) (by omega))
    rw [this, heq]

/-- Each poller run writes at most one status, and only a terminal one. -/
theorem pollAux_writes_shape (resp : Nat → Except String String) (wOk : Nat → Bool)
    (now : String) (store : VDeployment) :
    ∀ fuel i, (pollAux resp wOk now store i fuel).statusWrites = [] ∨
      (pollAux resp wOk now store i fuel).statusWrites = ["verified"] ∨
      (pollAux resp wOk now store i fuel).statusWrites = ["failed"] ∨
      (pollAux resp wOk now store i fuel).statusWrites = ["timeout"] := by
  intro fuel
  induction fuel with
  | zero => intro i; exact Or.inr (Or.inr (Or.inr rfl))
  | succ f ih =>
    intro i
    simp only [pollAux]
    cases resp i with
    | error e => exact Or.inl rfl
    | ok r =>
      dsimp only
      by_cases h1 : r = "Pass - Verified"
      · rw [if_pos h1]; exact Or.inr (Or.inl rfl)
      · rw [if_neg h1]
        by_cases h2 : strIncludes r "Fail" = true
        · rw [if_pos h2]; exact Or.inr (Or.inr (Or.inl rfl))
        · rw [if_neg h2]; exact ih (i + 1)

/-- C1: the verification poller makes at most 20 attempts, each preceded by
one fixed 3000 ms suspension; on the scripted responses
["Pending", "Pending", "Pass - Verified"] the final persisted status is
`verified` after exactly 3 attempts; on 20 "Pending" responses the final
status is `timeout`; a response containing "Fail" stops the loop at that
attempt with status `failed` and failureReason set to the raw response
text; and every run performs at most one status transition, always into a
terminal state — no transition ever leaves a terminal state. -/
theorem C1_poller_state_machine (wOk : Nat → Bool) (now : String) (store : VDeployment) :
    (∀ resp, (pollVerificationStatus resp wOk now store).attempts ≤ 20 ∧
      (pollVerificationStatus resp wOk now store).delayMsTotal =
        (pollVerificationStatus resp wOk now store).attempts * 3000) ∧
    ((pollVerificationStatus
        (fun i => .ok ((["Pending", "Pending", "Pass - Verified"] : List String).getD i "Pending"))
        (fun _ => true) now store).result = .ok () ∧
      (pollVerificationStatus
        (fun i => .ok ((["Pending", "Pending", "Pass - Verified"] : List String).getD i "Pending"))
        (fun _ => true) now store).store.verification.map Verification.status =
          some "verified" ∧
      (pollVerificationStatus
        (fun i => .ok ((["Pending", "Pending", "Pass - Verified"] : List String).getD i "Pending"))
        (fun _ => true) now store).attempts = 3) ∧
    ((pollVerificationStatus (fun _ => .ok "Pending") (fun _ => true) now store).result =
        .error "Verification timeout" ∧
      (pollVerificationStatus (fun _ => .ok "Pending") (fun _ => true) now
          store).store.verification.map Verification.status = some "timeout" ∧
      (pollVerificationStatus (fun _ => .ok "Pending") (fun _ => true) now store).attempts
        = 20) ∧
    (∀ resp i0 r, i0 < 20 →
      (∀ j, j < i0 →
        ∃ s, resp j = .ok s ∧ s ≠ "Pass - Verified" ∧ strIncludes s "Fail" = false) →
      resp i0 = .ok r → r ≠ "Pass - Verified" → strIncludes r "Fail" = true →
      (pollVerificationStatus resp (fun _ => true) now store).result =
        .error ("Verification failed: " ++ r) ∧
      (pollVerificationStatus resp (fun _ => true) now store).attempts = i0 + 1 ∧
      (pollVerificationStatus resp (fun _ => true) now store).store.verification.map
        Verification.status = some "failed" ∧
      (pollVerificationStatus resp (fun _ => true) now store).store.verification.bind
        Verification.failureReason = some r) ∧
    (∀ resp, (pollVerificationStatus resp wOk now store).statusWrites.length ≤ 1 ∧
      ∀ st ∈ (pollVerificationStatus resp wOk now store).statusWrites,
        st = "verified" ∨ st = "failed" ∨ st = "timeout") := by
  refine ⟨?_, ?_, ?_, ?_, ?_⟩
  · intro resp
    exact ⟨(pollAux_attempts resp wOk now store 20 0).1,
      (pollAux_attempts resp wOk now store 20 0).2⟩
  · have h := pollAux_verified_stop
      (fun i => .ok ((["Pending", "Pending", "Pass - Verified"] : List String).getD i "Pending"))
      (fun _ => true) now store 2 rfl 20 0 (by omega) (by omega)
      (by intro j h0 hj
          interval_cases j <;> exact ⟨"Pending", rfl, by decide, by decide⟩)
    refine ⟨?_, ?_, ?_⟩ <;> rw [pollVerificationStatus, h] <;>
      simp [updateVerificationStatus]
  · have h := pollAux_timeout (fun _ => .ok "Pending") (fun _ => true) now store 20 0
      (fun j hj1 hj2 => ⟨"Pending", rfl, by decide, by decide⟩)
    refine ⟨?_, ?_, ?_⟩ <;> rw [pollVerificationStatus, h] <;>
      simp [updateVerificationStatus]
  · intro resp i0 r hi0 hprev hr hr1 hr2
    have h := pollAux_fail_stop resp (fun _ => true) now store i0 r hr hr1 hr2 20 0
      (Nat.zero_le i0) (by omega) (fun j hj1 hj2 => hprev j hj2)
    refine ⟨?_, ?_, ?_, ?_⟩ <;> rw [pollVerificationStatus, h] <;>
      simp [updateVerificationStatus]
  · intro resp
    have hs := pollAux_writes_shape resp wOk now store 20 0
    simp only [pollVerificationStatus]
    rcases hs with h | h | h | h <;> rw [h] <;> simp

/-- Witness for C1 via the fail-stop clause: an immediate "Fail - Unable to
verify" response stops the poller at the first attempt with status failed
and the raw text as failure reason. -/
theorem C1_poller_state_machine_witness :
    (pollVerificationStatus (fun _ => .ok "Fail - Unable to verify") (fun _ => true)
      "T0" sampleVDeployment).result =
      .error ("Verification failed: " ++ "Fail - Unable to verify") ∧
    (pollVerificationStatus (fun _ => .ok "Fail - Unable to verify") (fun _ => true)
      "T0" sampleVDeployment).attempts = 0 + 1 ∧
    (pollVerificationStatus (fun _ => .ok "Fail - Unable to verify") (fun _ => true)
      "T0" sampleVDeployment).store.verification.map Verification.status =
      some "failed" ∧
    (pollVerificationStatus (fun _ => .ok "Fail - Unable to verify") (fun _ => true)
      "T0" sampleVDeployment).store.verification.bind Verification.failureReason =
      some "Fail - Unable to verify" :=
  (C1_poller_state_machine (fun _ => true) "T0" sampleVDeployment).2.2.2.1
    (fun _ => .ok "Fail - Unable to verify") 0 "Fail - Unable to verify"
    (by omega) (fun j hj => absurd hj (Nat.not_lt_zero j)) rfl (by decide) (by decide)

/-- C7: for every verification-status write-back (the initial `submitted`
record and every poller transition), a write failure is caught, logged and
never changes the primary outcome already determined: two runs over the same
environment that differ only in which record writes succeed report the same
result, the same submission behaviour, the same poll attempts and the same
process exit code. -/
theorem C7_write_failures_never_change_outcome (env : VerifyEnv) (w1 w2 : Nat → Bool) :
    (verifyContract env w1).result = (verifyContract env w2).result ∧
    (verifyContract env w1).submitCalled = (verifyContract env w2).submitCalled ∧
    (verifyContract env w1).pollAttempts = (verifyContract env w2).pollAttempts ∧
    verifyExitCode (verifyContract env w1) = verifyExitCode (verifyContract env w2) := by
  have key : (verifyContract env w1).result = (verifyContract env w2).result ∧
      (verifyContract env w1).submitCalled = (verifyContract env w2).submitCalled ∧
      (verifyContract env w1).pollAttempts = (verifyContract env w2).pollAttempts := by
    simp only [verifyContract]
    cases env.readSettings with
    | error e => exact ⟨rfl, rfl, rfl⟩
    | ok settings =>
      dsimp only
      cases env.readDeployment with
      | error e => exact ⟨rfl, rfl, rfl⟩
      | ok d =>
        dsimp only
        cases env.getCode with
        | error e => exact ⟨rfl, rfl, rfl⟩
        | ok code =>
          dsimp only
          by_cases hb : strIncludes code (settings.deployedBytecode.drop 2) = false
          · simp [hb]
          · rw [if_neg hb, if_neg hb]
            cases jsTruthy d.encodedConstructorArgs with
            | some v =>
              dsimp only
              cases env.readSource with
              | error e => exact ⟨rfl, rfl, rfl⟩
              | ok src =>
                dsimp only
                cases env.submit (buildVerificationPayload env
                    (verifyNetwork env.argv env.envNETWORK) settings d src v) with
                | error e => exact ⟨rfl, rfl, rfl⟩
                | ok resp =>
                  dsimp only
                  by_cases hst : resp.status = "1"
                  · rw [if_pos hst, if_pos hst]
                    refine ⟨?_, rfl, ?_⟩
                    · exact (pollAux_result_indep env.pollResp _ _ env.timestamp _ _ 0 20).1
                    · exact (pollAux_result_indep env.pollResp _ _ env.timestamp _ _ 0 20).2
                  · rw [if_neg hst, if_neg hst]
                    exact ⟨rfl, rfl, rfl⟩
            | none =>
              dsimp only
              cases (env.encodeArgs (d.constructorTypes.getD [])
                  (d.constructorArgs.getD [])).map (fun s => s.drop 2) with
              | error e => exact ⟨rfl, rfl, rfl⟩
              | ok encArgs =>
                dsimp only
                cases env.readSource with
                | error e => exact ⟨rfl, rfl, rfl⟩
                | ok src =>
                  dsimp only
                  cases env.submit (buildVerificationPayload env
                      (verifyNetwork env.argv env.envNETWORK) settings d src encArgs) with
                  | error e => exact ⟨rfl, rfl, rfl⟩
                  | ok resp =>
                    dsimp only
                    by_cases hst : resp.status = "1"
                    · rw [if_pos hst, if_pos hst]
                      refine ⟨?_, rfl, ?_⟩
                      · exact (pollAux_result_indep env.pollResp _ _ env.timestamp _ _ 0 20).1
                      · exact (pollAux_result_indep env.pollResp _ _ env.timestamp _ _ 0 20).2
                    · rw [if_neg hst, if_neg hst]
                      exact ⟨rfl, rfl, rfl⟩
  refine ⟨key.1, key.2.1, key.2.2, ?_⟩
  unfold verifyExitCode
  rw [key.1]

/-- C9 counterexample: with a failing source file the try-block of
`compile()` throws, but the catch-all converts the throw into a resolved
`false`: the promise never rejects and the process exits 0, contradicting
the claimed non-zero exit via an unhandled rejection on internal failure. -/
theorem C9_counterexample :
    compileBody envCompileBad = .error "Compilation failed due to errors" ∧
    compileFn envCompileBad = .ok false ∧
    compileScriptExit envCompileBad = 0 ∧
    ∀ e : String, compileFn envCompileBad ≠ .error e := by
  refine ⟨rfl, rfl, rfl, ?_⟩
  intro e h
  rw [show compileFn envCompileBad = .ok false from rfl] at h
  exact Except.noConfusion h

/-- C9 amended: the compile entry point returns a boolean success value
(true on full success, false on internal failure); an internal failure is
caught and logged inside the function, so the promise always resolves — no
unhandled rejection occurs and the process exits 0 in both cases. -/
theorem C9_compile_boolean_exit (env : CompileEnv) :
    (compileBody env = .ok () → compileFn env = .ok true) ∧
    (∀ e, compileBody env = .error e → compileFn env = .ok false) ∧
    (∀ e, compileFn env ≠ .error e) ∧
    compileScriptExit env = 0 := by
  unfold compileScriptExit compileFn
  cases h : compileBody env <;> simp [h]

/-- Witness for the amended C9 at a fully succeeding compile environment. -/
theorem C9_compile_boolean_exit_witness : compileFn envCompileGood = .ok true :=
  (C9_compile_boolean_exit envCompileGood).1 rfl
